import Mathlib

/-!
Verification development for the Display-Output kiosk client
(device pairing & content synchronization engine).

The TypeScript sources are shallowly embedded as pure Lean functions:
  * `ContentService` (src/services/contentService.ts): fetch, cache,
    fallback resolution, default content, realtime debounce.
  * `DeviceService` (src/services/deviceService.ts): device identity,
    pairing code, registration.
  * `ContentDisplay` (src/components/ContentDisplay.tsx): the display
    scheduler (index, transition flag, timers).
  * `useContentSubscription` / `DevicePairing` hooks and components.
Browser state (localStorage / sessionStorage / React state) is passed
explicitly; timers are modelled by event lists or explicit callbacks;
async failure is modelled with `Except` / outcome types.
-/

/-- `Content` row (src/services/supabaseClient.ts, interface Content).
`duration` is `Option Nat` so that the scheduler's JS-falsy default
(`currentContent?.duration || 10`) can be stated for an absent duration. -/
structure Content where
  id : String
  user_id : String
  title : String
  content_type : String
  text_content : Option String
  file_url : Option String
  duration : Option Nat
  is_active : Bool
  created_at : String
  updated_at : String
deriving DecidableEq, Repr

/-- One row of the `device_content` join query; only the joined `content`
column matters for the playlist (other columns are dropped). A row whose
join produced no content carries `none` (filtered by `.filter(Boolean)`). -/
structure DeviceContentRow where
  content : Option Content
deriving DecidableEq, Repr

/-- Outcome of the supabase `device_content` select, as seen inside
`ContentService.getDeviceContent`:
  * `rejected e`  - the awaited promise rejected (transport failure);
  * `resolved err rows` - the query resolved with an optional `error`
    field and the data rows (a `null` data is modelled as `rows = []`). -/
inductive FetchOutcome where
  | rejected : String → FetchOutcome
  | resolved : Option String → List DeviceContentRow → FetchOutcome
deriving DecidableEq, Repr

/-- The body of the `try` block of `ContentService.getDeviceContent`
(contentService.ts lines 9-35): a rejected await propagates, a non-null
`error` field is thrown (`if (error) throw error`), otherwise the rows
are mapped to their `content` column and nullish entries are dropped
(`data?.map(item => item.content).filter(Boolean) || []`). -/
def getDeviceContentBody : FetchOutcome → Except String (List Content)
  | FetchOutcome.rejected e => Except.error e
  | FetchOutcome.resolved (some e) _ => Except.error e
  | FetchOutcome.resolved none rows => Except.ok (rows.filterMap (·.content))

/-- `ContentService.getDeviceContent` (contentService.ts lines 6-40):
the whole body is wrapped in `try/catch` and the catch returns `[]`,
so every error collapses to the empty playlist. -/
def getDeviceContent (o : FetchOutcome) : List Content :=
  match getDeviceContentBody o with
  | Except.error _ => []
  | Except.ok l => l

/-- The two localStorage keys used by the cache
(`cached_content`, `cache_timestamp`); `none` models an absent key. -/
structure CacheState where
  items : Option (List Content)
  timestamp : Option Nat
deriving DecidableEq, Repr

/-- `ContentService.cacheContent` (contentService.ts lines 130-137):
overwrite both keys with the playlist and the current time. -/
def cacheContent (content : List Content) (now : Nat) : CacheState :=
  { items := some content, timestamp := some now }

/-- `ContentService.getCachedContent` (contentService.ts lines 140-150):
parse the cached playlist, or `[]` when the key is absent. -/
def getCachedContent (c : CacheState) : List Content :=
  match c.items with
  | some l => l
  | none => []

/-- `ContentService.isCacheValid` (contentService.ts lines 153-164):
true iff a timestamp exists and `now - timestamp < 60*60*1000` ms. -/
def isCacheValid (now : Nat) (c : CacheState) : Bool :=
  match c.timestamp with
  | some t => now - t < 60 * 60 * 1000
  | none => false

/-- `ContentService.getDefaultContent` (contentService.ts lines 204-240):
the three built-in text items. `code` is the session device code spliced
into the third item, `nowIso` the `new Date().toISOString()` stamp. -/
def getDefaultContent (code nowIso : String) : List Content :=
  [ { id := "default-welcome", user_id := "",
      title := "Welcome to PiBoard Innovators", content_type := "text",
      text_content := some "🚀 Digital Signage Revolution\n\nTransforming communication through innovative display technology\n\nConnect • Display • Engage",
      file_url := none, duration := some 12, is_active := true,
      created_at := nowIso, updated_at := nowIso },
    { id := "default-features", user_id := "",
      title := "Powered by Innovation", content_type := "text",
      text_content := some "✨ Real-time Content Updates\n📱 Mobile App Control\n🎨 Rich Media Support\n🔄 Seamless Synchronization\n\nYour content, everywhere, instantly",
      file_url := none, duration := some 10, is_active := true,
      created_at := nowIso, updated_at := nowIso },
    { id := "default-pairing", user_id := "",
      title := "Ready to Connect", content_type := "text",
      text_content := some ("📲 Device Code: " ++ code ++ "\n\n🔗 Open your PiBoard mobile app\n📝 Enter the device code above\n🎯 Start sending amazing content!\n\nLet\x27s make your display come alive!"),
      file_url := none, duration := some 15, is_active := true,
      created_at := nowIso, updated_at := nowIso } ]

/-- `ContentService.getContentWithFallback` (contentService.ts lines
167-201), returning the resolved playlist together with the cache state
it leaves behind.  Try block: (1) a valid, non-empty cache is returned
as-is; (2) otherwise fetch; a non-empty fetch is cached and returned;
(3) an empty fetch falls through to default content.  The catch block
(lines 187-196, expired-cache fallback) is kept structurally: it fires
only if the try body raises, which `getDeviceContent` never does because
its own catch already swallows every error into `[]`. -/
def getContentWithFallback (now : Nat) (cache : CacheState)
    (fetch : FetchOutcome) (code nowIso : String) :
    List Content × CacheState :=
  let tryBody : Except String (Option (List Content × CacheState)) :=
    if isCacheValid now cache && (getCachedContent cache).length > 0 then
      Except.ok (some (getCachedContent cache, cache))
    else
      let freshContent := getDeviceContent fetch
      if freshContent.length > 0 then
        Except.ok (some (freshContent, cacheContent freshContent now))
      else
        Except.ok none
  match tryBody with
  | Except.ok (some r) => r
  | Except.ok none => (getDefaultContent code nowIso, cache)
  | Except.error _ =>
      let cached := getCachedContent cache
      if cached.length > 0 then (cached, cache)
      else (getDefaultContent code nowIso, cache)

/-- The content resolution seen by the app: `useContentSubscription`
(src/unnamed/part_001 lines 10-17) returns the built-in default content
whenever the device is unpaired, and otherwise resolution goes through
`ContentService.getContentWithFallback`. -/
def resolveCurrentContent (paired : Bool) (now : Nat) (cache : CacheState)
    (fetch : FetchOutcome) (code nowIso : String) : List Content :=
  if paired = false then getDefaultContent code nowIso
  else (getContentWithFallback now cache fetch code nowIso).1

/-- A sample non-default content item used in concrete counterexamples. -/
def itemX : Content :=
  { id := "x1", user_id := "u1", title := "Promo", content_type := "text",
    text_content := some "hello", file_url := none, duration := some 5,
    is_active := true, created_at := "t0", updated_at := "t0" }

/-- A second sample item, for multi-item playlists. -/
def itemY : Content :=
  { id := "y1", user_id := "u1", title := "News", content_type := "text",
    text_content := some "news", file_url := none, duration := some 3,
    is_active := true, created_at := "t0", updated_at := "t0" }

/-- A third sample item, for multi-item playlists. -/
def itemZ : Content :=
  { id := "z1", user_id := "u1", title := "Ad", content_type := "image",
    text_content := none, file_url := some "https://e/z.png",
    duration := none, is_active := true,
    created_at := "t0", updated_at := "t0" }

/-! ## useContentSubscription hook (src/unnamed/part_001) -/

/-- In-memory state of the `useContentSubscription` hook together with
the cache keys it manipulates through localStorage. -/
structure HookState where
  content : List Content
  cache : CacheState
deriving DecidableEq, Repr

/-- The realtime subscription callback of `useContentSubscription`
(part_001 lines 23-43): a non-empty update becomes the displayed content
and is written through to the cache; an empty update switches to default
content and removes both cache keys
(`localStorage.removeItem('cached_content')` /
`removeItem('cache_timestamp')`). -/
def onSubscriptionUpdate (now : Nat) (code nowIso : String)
    (newContent : List Content) (_st : HookState) : HookState :=
  if newContent.length > 0 then
    { content := newContent, cache := cacheContent newContent now }
  else
    { content := getDefaultContent code nowIso,
      cache := { items := none, timestamp := none } }

/-- `loadContent` of `useContentSubscription` (part_001 lines 50-88):
fetch fresh content directly via `getDeviceContent`; non-empty results
are displayed and cached, an empty result displays default content and
leaves the cache untouched.  The catch branch (fall back to a valid
cache, else default) is kept structurally; it fires only if the try body
raises, which `getDeviceContent` never does. -/
def loadContent (now : Nat) (code nowIso : String) (fetch : FetchOutcome)
    (st : HookState) : HookState :=
  let tryBody : Except String HookState :=
    let freshContent := getDeviceContent fetch
    if freshContent.length > 0 then
      Except.ok { content := freshContent,
                  cache := cacheContent freshContent now }
    else
      Except.ok { st with content := getDefaultContent code nowIso }
  match tryBody with
  | Except.ok st' => st'
  | Except.error _ =>
      let cached := getCachedContent st.cache
      if cached.length > 0 && isCacheValid now st.cache then
        { st with content := cached }
      else
        { st with content := getDefaultContent code nowIso }

/-! ## DeviceService (src/services/deviceService.ts) -/

/-- `DeviceService.generateDeviceCode` (deviceService.ts lines 5-7):
`Math.floor(100000 + Math.random() * 900000)`, with the random draw
modelled by a natural number below 900000. -/
def generateDeviceCode (rand : Nat) : String :=
  toString (100000 + rand % 900000)

/-- `DeviceService.getDeviceId` (deviceService.ts lines 10-32): return
the localStorage `device_id`, creating and persisting a fresh UUID when
absent.  Returns the id and the updated stored value. -/
def getDeviceId (stored : Option String) (freshUuid : String) :
    String × Option String :=
  match stored with
  | some d => (d, some d)
  | none => (freshUuid, some freshUuid)

/-- `DeviceService.getDeviceCode` (deviceService.ts lines 35-55): return
the sessionStorage `device_code` if one exists, otherwise generate a new
code and store it.  Returns the code and the updated session slot. -/
def getDeviceCode (session : Option String) (rand : Nat) :
    String × Option String :=
  match session with
  | some c => (c, some c)
  | none =>
      let c := generateDeviceCode rand
      (c, some c)

/-- `DeviceService.refreshDeviceCode` (deviceService.ts lines 58-63):
always generate a new code and overwrite the session slot.  (In the
sources this is invoked only from the manual debug button of the
pairing screen, never from the 600-second rotation interval.) -/
def serviceRefreshDeviceCode (rand : Nat) : String × Option String :=
  let c := generateDeviceCode rand
  (c, some c)

/-- `Device` row (src/services/supabaseClient.ts, interface Device),
restricted to the columns registration reads or writes. -/
structure Device where
  id : String
  device_code : String
  device_name : String
  user_id : Option String
  is_online : Bool
  last_seen : Nat
  ip_address : String
  wifi_ssid : String
deriving DecidableEq, Repr

/-- `DeviceService.registerDevice` (deviceService.ts lines 96-191).
`existing` is the row found by the initial select; `raceDevice` models
the row an insert collides with when the select missed it and the insert
fails with duplicate-key 23505 (that retry updates without touching
`device_name`).  Update path: code, online flag, last_seen, ip and ssid
are overwritten; `device_name` is reset to `"Pi Display {code}"` only
when `user_id` is null (unpaired).  Insert path: fresh row named
`"Pi Display {code}"` with `user_id = null`. -/
def registerDevice (now : Nat) (ip : String) (deviceId deviceCode : String)
    (existing : Option Device) (raceDevice : Option Device) : Device :=
  match existing with
  | some dev =>
      let base := { dev with
                    device_code := deviceCode,
                    is_online := true,
                    last_seen := now,
                    ip_address := ip,
                    wifi_ssid := "Connected" }
      match dev.user_id with
      | none => { base with device_name := "Pi Display " ++ deviceCode }
      | some _ => base
  | none =>
      match raceDevice with
      | none =>
          { id := deviceId, device_code := deviceCode,
            device_name := "Pi Display " ++ deviceCode, user_id := none,
            is_online := true, last_seen := now, ip_address := ip,
            wifi_ssid := "Connected" }
      | some dev =>
          { dev with
            device_code := deviceCode,
            is_online := true,
            last_seen := now,
            ip_address := ip,
            wifi_ssid := "Connected" }

/-! ## DevicePairing component (src/unnamed/part_004) -/

/-- The pieces of `DevicePairing` state touched by the 600-second code
refresh interval: pairing flag, the sessionStorage code slot, the
displayed code, the countdown, and the code stored in the remote device
record (updated through `DeviceService.updateDeviceCode`). -/
structure PairingState where
  isPaired : Bool
  session : Option String
  deviceCode : String
  countdown : Nat
  remoteCode : String
deriving DecidableEq, Repr

/-- The `refreshDeviceCode` closure inside `DevicePairing` (part_004
lines 121-141), fired by `setInterval(refreshDeviceCode, 600000)`
(line 148).  When paired it does nothing.  When unpaired it reads the
code via `DeviceService.getDeviceCode()` - which returns the existing
session code when one is stored - resets the countdown to 600 and pushes
that code to the remote record via `DeviceService.updateDeviceCode()`
(which itself re-reads `getDeviceCode`). -/
def intervalRefreshDeviceCode (rand : Nat) (s : PairingState) :
    PairingState :=
  if s.isPaired then s
  else
    let cs := getDeviceCode s.session rand
    { s with
      session := cs.2,
      deviceCode := cs.1,
      countdown := 600,
      remoteCode := cs.1 }

/-! ## ContentDisplay scheduler (src/components/ContentDisplay.tsx) -/

/-- The scheduler-owned React state of `ContentDisplay`: the playlist
prop, `currentIndex` and `isTransitioning`. -/
structure SchedulerState where
  content : List Content
  currentIndex : Nat
  transitioning : Bool
deriving DecidableEq, Repr

/-- `content[currentIndex]` (ContentDisplay.tsx line 16); `none` models
the JS `undefined` of an out-of-range index. -/
def currentContent (s : SchedulerState) : Option Content :=
  s.content.get? s.currentIndex

/-- The delay of the per-item timer (ContentDisplay.tsx line 35):
`(currentContent?.duration || 10) * 1000` - JS `||` also replaces an
explicit 0 by the default 10. -/
def itemTimerDelayMs (s : SchedulerState) : Nat :=
  (match (currentContent s).bind (·.duration) with
   | none => 10
   | some 0 => 10
   | some d => d) * 1000

/-- The callback of the per-item timer (ContentDisplay.tsx lines 37-46):
on a playlist of length ≤ 1 it returns without doing anything; otherwise
it sets `isTransitioning` and schedules the fade completion after 300 ms
(the returned `Option Nat` is the delay of that inner `setTimeout`,
`none` when nothing was scheduled). -/
def onItemTimer (s : SchedulerState) : SchedulerState × Option Nat :=
  if s.content.length ≤ 1 then (s, none)
  else ({ s with transitioning := true }, some 300)

/-- The fade-completion callback (ContentDisplay.tsx lines 42-45):
advance `currentIndex` modulo the playlist length and clear
`isTransitioning`. -/
def onFadeTimer (s : SchedulerState) : SchedulerState :=
  { s with
    currentIndex := (s.currentIndex + 1) % s.content.length,
    transitioning := false }

/-- One complete auto-advance cycle: the item timer fires and, when it
scheduled a fade, the fade timer fires too. -/
def autoAdvance (s : SchedulerState) : SchedulerState :=
  match onItemTimer s with
  | (s1, some _) => onFadeTimer s1
  | (s1, none) => s1

/-- `nextContent` (ContentDisplay.tsx lines 59-68), with both phases of
the transition completed. -/
def advanceNext (s : SchedulerState) : SchedulerState :=
  if s.content.length ≤ 1 then s
  else onFadeTimer { s with transitioning := true }

/-- `previousContent` (ContentDisplay.tsx lines 70-79), with both phases
completed: `(prev - 1 + content.length) % content.length`, written on
naturals as `(prev + length - 1) % length`. -/
def advancePrev (s : SchedulerState) : SchedulerState :=
  if s.content.length ≤ 1 then s
  else { s with
    currentIndex := (s.currentIndex + s.content.length - 1) % s.content.length,
    transitioning := false }

/-- A re-render of `ContentDisplay` with a new `content` prop (a new
sync result).  The component keeps its React `useState` values: App
(src/unnamed/part_000) renders it without a `key` and the component has
no effect calling `setCurrentIndex(0)`, so `currentIndex` and
`isTransitioning` persist across the prop change. -/
def replacePlaylist (newContent : List Content) (s : SchedulerState) :
    SchedulerState :=
  { s with content := newContent }

/-- The scheduler invariant claimed by the spec: whenever the playlist
is non-empty, `currentIndex` is in range. -/
def IndexInRange (s : SchedulerState) : Prop :=
  s.content ≠ [] → s.currentIndex < s.content.length

/-! ## Debounced realtime refresh
(`ContentService.subscribeToContentUpdates`, contentService.ts 52-106) -/

/-- Times at which the debounced refresh of `fetchAndCallback` actually
fires, for a time-sorted list of notification instants (merged from the
`device_content` and `content` streams).  Each notification clears any
pending timer (`clearTimeout`) and schedules a refresh 500 ms later
(`setTimeout(..., 500)`); the pending refresh runs only if no further
notification arrives strictly before its deadline. -/
def debounceFires : List Nat → List Nat
  | [] => []
  | [t] => [t + 500]
  | t :: t2 :: rest =>
      if t2 < t + 500 then debounceFires (t2 :: rest)
      else (t + 500) :: debounceFires (t2 :: rest)

/-- The content each debounced refresh delivers to the callback: a full
re-pull through `getDeviceContent` (no incremental patching). -/
def debounceRefreshes (fetch : FetchOutcome) (ts : List Nat) :
    List (Nat × List Content) :=
  (debounceFires ts).map (fun t => (t, getDeviceContent fetch))

/-- A sample content item carrying an explicit duration of 0 seconds,
used to exhibit the JS-falsy `duration || 10` default. -/
def itemZero : Content :=
  { id := "zero1", user_id := "u1", title := "Flash", content_type := "text",
    text_content := some "blink", file_url := none, duration := some 0,
    is_active := true, created_at := "t0", updated_at := "t0" }

/-- A sample paired device row used in concrete witnesses. -/
def devP : Device :=
  { id := "dev-1", device_code := "999999", device_name := "Lobby Screen",
    user_id := some "owner-1", is_online := false, last_seen := 0,
    ip_address := "0.0.0.0", wifi_ssid := "Old" }

/-! # Theorems -/

/-- C10: for every outcome of the remote query - a rejected promise or a
resolved response carrying an `error` - `getDeviceContent` returns `[]`
rather than propagating the error, so an error is indistinguishable from
a device with no content. -/
theorem getDeviceContent_never_propagates :
    (∀ (o : FetchOutcome) (e : String),
        getDeviceContentBody o = Except.error e → getDeviceContent o = []) ∧
    getDeviceContent (FetchOutcome.rejected "network down")
      = getDeviceContent (FetchOutcome.resolved none []) := by
  constructor
  · intro o e h
    unfold getDeviceContent
    rw [h]
  · rfl

/-- Witness for `getDeviceContent_never_propagates` at the concrete
rejected outcome. -/
theorem getDeviceContent_never_propagates_witness :
    getDeviceContent (FetchOutcome.rejected "boom") = [] :=
  getDeviceContent_never_propagates.1 (FetchOutcome.rejected "boom") "boom" rfl

/-- C8: for every non-empty burst of notifications (last one at time
`l`) in which consecutive notifications are less than 500 ms apart, the
debouncer fires exactly one refresh, 500 ms after the last notification
of the burst. -/
theorem debounce_burst_single_refresh (ts : List Nat) (l : Nat)
    (hlast : ts.getLast? = some l)
    (hburst : List.Chain' (fun a b => a ≤ b ∧ b < a + 500) ts) :
    debounceFires ts = [l + 500] := by
  induction ts generalizing l with
  | nil => simp at hlast
  | cons t rest ih =>
    cases rest with
    | nil =>
      simp at hlast
      subst hlast
      rfl
    | cons t2 rest2 =>
      rw [List.chain'_cons] at hburst
      obtain ⟨⟨hle, hlt⟩, hchain⟩ := hburst
      have hstep : debounceFires (t :: t2 :: rest2)
          = debounceFires (t2 :: rest2) := by
        show (if t2 < t + 500 then debounceFires (t2 :: rest2)
              else (t + 500) :: debounceFires (t2 :: rest2))
            = debounceFires (t2 :: rest2)
        rw [if_pos hlt]
      rw [hstep]
      apply ih
      · rwa [List.getLast?_cons_cons] at hlast
      · exact hchain

/-- Witness for `debounce_burst_single_refresh`: four notifications at
0, 100, 450 and 900 ms (all gaps < 500 ms) produce the single refresh
at 1400 ms. -/
theorem debounce_burst_single_refresh_witness :
    debounceFires [0, 100, 450, 900] = [900 + 500] :=
  debounce_burst_single_refresh [0, 100, 450, 900] 900 rfl
    (by
      refine List.chain'_cons.mpr ⟨⟨by omega, by omega⟩, ?_⟩
      refine List.chain'_cons.mpr ⟨⟨by omega, by omega⟩, ?_⟩
      refine List.chain'_cons.mpr ⟨⟨by omega, by omega⟩, ?_⟩
      exact List.chain'_singleton 900)

/-- C9 counterexample: the current item of this two-item playlist
carries `durationSeconds = 0`, yet the advance timer is set to 10000 ms
(the JS-falsy `duration || 10` default), not to the item's
`durationSeconds * 1000 = 0` ms that the claim prescribes. -/
theorem scheduler_zero_duration_counterexample :
    currentContent { content := [itemZero, itemY], currentIndex := 0,
                     transitioning := false } = some itemZero ∧
    itemZero.duration = some 0 ∧
    itemTimerDelayMs { content := [itemZero, itemY], currentIndex := 0,
                       transitioning := false } = 10000 ∧
    itemTimerDelayMs { content := [itemZero, itemY], currentIndex := 0,
                       transitioning := false } ≠ 0 * 1000 := by
  refine ⟨rfl, rfl, rfl, by decide⟩

/-- C9 amended: the advance timer runs for `durationSeconds * 1000` ms
when the current item's duration is positive, and for 10000 ms when the
duration is absent or 0 (the JS-falsy `duration || 10` default).  On
every playlist of length ≥ 2 the timer callback sets
`transitioning := true` and schedules the fade completion 300 ms later,
which increments `currentIndex` modulo the playlist length and clears
`transitioning`; on a playlist of length 1 the timer callback changes
nothing and schedules no advance, regardless of elapsed time. -/
theorem scheduler_auto_advance_spec (s : SchedulerState) :
    (∀ c, currentContent s = some c → c.duration = none →
        itemTimerDelayMs s = 10 * 1000) ∧
    (∀ c, currentContent s = some c → c.duration = some 0 →
        itemTimerDelayMs s = 10 * 1000) ∧
    (∀ c d, currentContent s = some c → c.duration = some d → 0 < d →
        itemTimerDelayMs s = d * 1000) ∧
    (2 ≤ s.content.length →
        onItemTimer s = ({ s with transitioning := true }, some 300) ∧
        autoAdvance s = { s with
          currentIndex := (s.currentIndex + 1) % s.content.length,
          transitioning := false }) ∧
    (s.content.length = 1 → onItemTimer s = (s, none) ∧ autoAdvance s = s) := by
  refine ⟨?_, ?_, ?_, ?_, ?_⟩
  · intro c hc hd
    simp [itemTimerDelayMs, hc, hd]
  · intro c hc hd
    simp [itemTimerDelayMs, hc, hd]
  · intro c d hc hd hdpos
    cases d with
    | zero => omega
    | succ d' => simp [itemTimerDelayMs, hc, hd]
  · intro h2
    have hnot : ¬ s.content.length ≤ 1 := by omega
    constructor
    · simp [onItemTimer, hnot]
    · simp [autoAdvance, onItemTimer, hnot, onFadeTimer]
  · intro h1
    have hle : s.content.length ≤ 1 := by omega
    constructor
    · simp [onItemTimer, hle]
    · simp [autoAdvance, onItemTimer, hle]

/-- Witness for `scheduler_auto_advance_spec` at a concrete two-item
playlist sitting on index 0: the timer delay of itemZero (duration 0)
is 10000 ms, and the advance sequence runs as stated. -/
theorem scheduler_auto_advance_spec_witness :
    itemTimerDelayMs { content := [itemZero, itemY], currentIndex := 0,
                       transitioning := false } = 10 * 1000 ∧
    onItemTimer { content := [itemZero, itemY], currentIndex := 0,
                  transitioning := false }
      = ({ content := [itemZero, itemY], currentIndex := 0,
           transitioning := true }, some 300) ∧
    autoAdvance { content := [itemZero, itemY], currentIndex := 0,
                  transitioning := false }
      = { content := [itemZero, itemY], currentIndex := 1,
          transitioning := false } := by
  have h := scheduler_auto_advance_spec
      { content := [itemZero, itemY], currentIndex := 0,
        transitioning := false }
  have hadv := h.2.2.2.1 (by decide)
  exact ⟨h.2.1 itemZero rfl rfl, hadv.1, hadv.2⟩


/-- C3 counterexample: replacing the playlist `[itemX, itemY, itemZ]`
(index 2) by the new sync result `[itemX, itemY]` leaves `currentIndex`
at 2 - it is not reset to 0 - and the next item shown is not item 0 of
the new playlist (the index is even out of range, so the component
renders its fallback screen). -/
theorem replacePlaylist_no_reset_counterexample :
    (replacePlaylist [itemX, itemY]
        { content := [itemX, itemY, itemZ], currentIndex := 2,
          transitioning := false }).currentIndex ≠ 0 ∧
    currentContent (replacePlaylist [itemX, itemY]
        { content := [itemX, itemY, itemZ], currentIndex := 2,
          transitioning := false }) = none := by
  exact ⟨by decide, rfl⟩

/-- C3 amended: when the playlist prop changes, the scheduler keeps its
`currentIndex` unchanged (there is no reset to 0); the item rendered
next is the entry of the new playlist at the old index, which may be
absent. -/
theorem replacePlaylist_preserves_index (newContent : List Content)
    (s : SchedulerState) :
    (replacePlaylist newContent s).currentIndex = s.currentIndex ∧
    (replacePlaylist newContent s).content = newContent ∧
    currentContent (replacePlaylist newContent s)
      = newContent.get? s.currentIndex := by
  exact ⟨rfl, rfl, rfl⟩

/-- C4 counterexample: the in-range invariant holds of the state with
playlist `[itemX, itemY, itemZ]` and index 2, yet fails after the
playlist is replaced by the shorter non-empty `[itemX]`. -/
theorem indexInRange_replace_counterexample :
    IndexInRange { content := [itemX, itemY, itemZ], currentIndex := 2,
                   transitioning := false } ∧
    ¬ IndexInRange (replacePlaylist [itemX]
        { content := [itemX, itemY, itemZ], currentIndex := 2,
          transitioning := false }) := by
  constructor
  · intro _
    decide
  · intro hinv
    have h2 : (2 : Nat) < 1 := hinv (by decide)
    omega

/-- C4 amended: auto-advance, manual next and manual previous preserve
the in-range invariant from every state satisfying it; playlist
replacement preserves it only under the extra assumption that the new
playlist is empty or longer than the current index (the code itself
does not re-establish the invariant on replacement). -/
theorem scheduler_ops_preserve_indexInRange (s : SchedulerState)
    (h : IndexInRange s) :
    IndexInRange (autoAdvance s) ∧ IndexInRange (advanceNext s) ∧
    IndexInRange (advancePrev s) ∧
    (∀ newContent : List Content,
        newContent = [] ∨ s.currentIndex < newContent.length →
        IndexInRange (replacePlaylist newContent s)) := by
  have hlen : ∀ t : SchedulerState, t.content = s.content →
      t.content ≠ [] → 0 < s.content.length := by
    intro t ht hne
    rw [ht] at hne
    exact List.length_pos.mpr hne
  refine ⟨?_, ?_, ?_, ?_⟩
  · intro hne
    unfold autoAdvance onItemTimer at *
    by_cases hc : s.content.length ≤ 1
    · simp only [if_pos hc] at hne ⊢
      exact h hne
    · simp only [if_neg hc, onFadeTimer] at hne ⊢
      exact Nat.mod_lt _ (by omega)
  · intro hne
    unfold advanceNext at *
    by_cases hc : s.content.length ≤ 1
    · simp only [if_pos hc] at hne ⊢
      exact h hne
    · simp only [if_neg hc, onFadeTimer] at hne ⊢
      exact Nat.mod_lt _ (by omega)
  · intro hne
    unfold advancePrev at *
    by_cases hc : s.content.length ≤ 1
    · simp only [if_pos hc] at hne ⊢
      exact h hne
    · simp only [if_neg hc] at hne ⊢
      exact Nat.mod_lt _ (by omega)
  · intro newContent hnew hne
    rcases hnew with hnil | hlt
    · subst hnil
      exact absurd rfl hne
    · exact hlt

/-- Witness for `scheduler_ops_preserve_indexInRange` at the concrete
state with playlist `[itemX, itemY]` and index 1. -/
theorem scheduler_ops_preserve_indexInRange_witness :
    IndexInRange (autoAdvance
      { content := [itemX, itemY], currentIndex := 1, transitioning := false }) ∧
    IndexInRange (advanceNext
      { content := [itemX, itemY], currentIndex := 1, transitioning := false }) ∧
    IndexInRange (advancePrev
      { content := [itemX, itemY], currentIndex := 1, transitioning := false }) ∧
    IndexInRange (replacePlaylist [itemX, itemY, itemZ]
      { content := [itemX, itemY], currentIndex := 1, transitioning := false }) :=
  have h := scheduler_ops_preserve_indexInRange
    { content := [itemX, itemY], currentIndex := 1, transitioning := false }
    (fun _ => by decide)
  ⟨h.1, h.2.1, h.2.2.1,
    h.2.2.2 [itemX, itemY, itemZ] (Or.inr (by decide))⟩

/-- Branch analysis of `getContentWithFallback`: valid non-empty cache
first, then a non-empty fetch (which is written through to the cache),
then default content. -/
theorem getContentWithFallback_cases (now : Nat) (cache : CacheState)
    (fetch : FetchOutcome) (code nowIso : String) :
    getContentWithFallback now cache fetch code nowIso
      = if isCacheValid now cache = true ∧ (getCachedContent cache).length > 0 then
          (getCachedContent cache, cache)
        else if (getDeviceContent fetch).length > 0 then
          (getDeviceContent fetch, cacheContent (getDeviceContent fetch) now)
        else (getDefaultContent code nowIso, cache) := by
  simp only [getContentWithFallback, Bool.and_eq_true, decide_eq_true_eq]
  split_ifs <;> rfl

/-- C1 counterexample: with a paired device, an empty remote playlist
and a stale but non-empty cache, resolution returns the built-in
default content even though the cache is non-empty - refuting the
claimed "default iff unpaired or (remote empty and cache empty)". -/
theorem resolveCurrentContent_default_iff_counterexample :
    ¬ (∀ (paired : Bool) (now : Nat) (cache : CacheState)
        (rows : List DeviceContentRow) (code nowIso : String),
        (resolveCurrentContent paired now cache
            (FetchOutcome.resolved none rows) code nowIso
          = getDefaultContent code nowIso)
        ↔ (paired = false ∨
           (rows.filterMap (·.content) = []
             ∧ getCachedContent cache = []))) := by
  intro hclaim
  have h := (hclaim true 7200000 { items := some [itemX], timestamp := some 0 }
      [] "123456" "t0").mp rfl
  rcases h with h1 | ⟨_, h2⟩
  · exact Bool.noConfusion h1
  · exact absurd h2 (by decide)

/-- C1 amended: resolution returns the built-in default content iff the
device is unpaired, or it is paired, the remote playlist is empty, and
no fresh non-empty cache exists (the cache is empty or stale).  Stated
for remote and cached playlists distinct from the default playlist, and
for a fetch that resolves without error. -/
theorem resolveCurrentContent_default_iff (paired : Bool) (now : Nat)
    (cache : CacheState) (rows : List DeviceContentRow) (code nowIso : String)
    (hc : getCachedContent cache ≠ getDefaultContent code nowIso)
    (hr : rows.filterMap (·.content) ≠ getDefaultContent code nowIso) :
    (resolveCurrentContent paired now cache
        (FetchOutcome.resolved none rows) code nowIso
      = getDefaultContent code nowIso)
    ↔ (paired = false ∨
       (rows.filterMap (·.content) = [] ∧
        (getCachedContent cache = [] ∨ isCacheValid now cache = false))) := by
  have hfetch : getDeviceContent (FetchOutcome.resolved none rows)
      = rows.filterMap (·.content) := rfl
  cases paired with
  | false => simp [resolveCurrentContent]
  | true =>
    have hres : resolveCurrentContent true now cache
        (FetchOutcome.resolved none rows) code nowIso
        = (getContentWithFallback now cache
            (FetchOutcome.resolved none rows) code nowIso).1 := by
      simp [resolveCurrentContent]
    rw [hres, getContentWithFallback_cases]
    by_cases h1 : isCacheValid now cache = true
        ∧ (getCachedContent cache).length > 0
    · rw [if_pos h1]
      constructor
      · intro heq
        exact absurd heq hc
      · rintro (hp | ⟨_, (hce | hstale)⟩)
        · exact absurd hp (by simp)
        · have hlen := h1.2
          rw [hce] at hlen
          simp at hlen
        · rw [h1.1] at hstale
          exact Bool.noConfusion hstale
    · rw [if_neg h1]
      by_cases h2 : (getDeviceContent (FetchOutcome.resolved none rows)).length > 0
      · rw [if_pos h2]
        constructor
        · intro heq
          rw [hfetch] at heq
          exact absurd heq hr
        · rintro (hp | ⟨hrows, _⟩)
          · exact absurd hp (by simp)
          · rw [hfetch, hrows] at h2
            simp at h2
      · rw [if_neg h2]
        constructor
        · intro _
          right
          constructor
          · rw [hfetch] at h2
            exact List.length_eq_zero.mp (Nat.eq_zero_of_not_pos h2)
          · by_cases hv : isCacheValid now cache = true
            · left
              have hl : ¬ (getCachedContent cache).length > 0 :=
                fun hl => h1 ⟨hv, hl⟩
              exact List.length_eq_zero.mp (Nat.eq_zero_of_not_pos hl)
            · right
              exact Bool.eq_false_iff.mpr hv
        · intro _
          rfl

/-- Witness for `resolveCurrentContent_default_iff` at the concrete
paired state with empty remote playlist and a stale non-empty cache. -/
theorem resolveCurrentContent_default_iff_witness :
    (resolveCurrentContent true 7200001
        { items := some [itemX], timestamp := some 0 }
        (FetchOutcome.resolved none []) "c" "t0"
      = getDefaultContent "c" "t0")
    ↔ (true = false ∨
       (([] : List DeviceContentRow).filterMap (·.content) = [] ∧
        (getCachedContent { items := some [itemX], timestamp := some 0 } = [] ∨
         isCacheValid 7200001 { items := some [itemX], timestamp := some 0 }
           = false))) :=
  resolveCurrentContent_default_iff true 7200001
    { items := some [itemX], timestamp := some 0 } [] "c" "t0"
    (by decide) (by decide)

/-- C2: the 600-second rotation tick does not generate a new pairing
code.  With session code "111111" stored and the device unpaired, the
interval handler re-reads the same code (via
`DeviceService.getDeviceCode`), re-publishes it to the remote record and
resets the countdown - while the same random draw would have produced
the fresh code "524242" had `DeviceService.refreshDeviceCode` (wired
only to the manual debug button) been used.  A paired tick is inert. -/
theorem intervalRefresh_keeps_existing_code :
    (intervalRefreshDeviceCode 424242
        { isPaired := false, session := some "111111",
          deviceCode := "111111", countdown := 37, remoteCode := "111111" })
      = { isPaired := false, session := some "111111",
          deviceCode := "111111", countdown := 600, remoteCode := "111111" } ∧
    (serviceRefreshDeviceCode 424242).1 = "524242" ∧
    generateDeviceCode 424242 ≠ "111111" ∧
    (intervalRefreshDeviceCode 424242
        { isPaired := true, session := some "111111",
          deviceCode := "111111", countdown := 37, remoteCode := "111111" })
      = { isPaired := true, session := some "111111",
          deviceCode := "111111", countdown := 37, remoteCode := "111111" } := by
  refine ⟨rfl, by decide, by decide, rfl⟩

/-- C5: with a stale but non-empty cache and a fetch that fails, the
fallback resolver returns the built-in default content instead of the
expired cache: `getDeviceContent` swallows the error into `[]`, so the
expired-cache catch branch of `getContentWithFallback` never runs. -/
theorem fetchFailure_staleCache_returns_default :
    isCacheValid 7200000 { items := some [itemX], timestamp := some 0 }
      = false ∧
    getCachedContent { items := some [itemX], timestamp := some 0 }
      = [itemX] ∧
    (getContentWithFallback 7200000
        { items := some [itemX], timestamp := some 0 }
        (FetchOutcome.rejected "network down") "123456" "t0").1
      = getDefaultContent "123456" "t0" := by
  refine ⟨rfl, rfl, rfl⟩

/-- C6 counterexample: the initial `loadContent` path is a live sync;
when it succeeds with an empty playlist it leaves the (non-empty) cache
entirely in place - the cache is not cleared on every empty sync. -/
theorem loadContent_empty_sync_keeps_cache_counterexample :
    (loadContent 5 "c" "t0" (FetchOutcome.resolved none [])
        { content := [itemX],
          cache := { items := some [itemX], timestamp := some 0 } }).cache
      = { items := some [itemX], timestamp := some 0 } ∧
    ({ items := some [itemX], timestamp := some 0 } : CacheState).items
      ≠ none := by
  refine ⟨rfl, by decide⟩

/-- C6 amended: only the realtime-subscription update path clears the
single-slot cache (both keys) when a live sync yields an empty
playlist; the initial `loadContent` path leaves the cache untouched on
an empty sync. -/
theorem cache_cleared_on_empty_subscription_sync (now : Nat)
    (code nowIso : String) (st : HookState) :
    (onSubscriptionUpdate now code nowIso [] st).cache
        = { items := none, timestamp := none } ∧
    (∀ fetch, getDeviceContent fetch = [] →
        (loadContent now code nowIso fetch st).cache = st.cache) := by
  constructor
  · rfl
  · intro fetch hf
    simp [loadContent, hf]

/-- Witness for `cache_cleared_on_empty_subscription_sync` at a concrete
hook state with a non-empty cache. -/
theorem cache_cleared_on_empty_subscription_sync_witness :
    (onSubscriptionUpdate 5 "c" "t0" []
        { content := [itemX],
          cache := { items := some [itemX], timestamp := some 0 } }).cache
        = { items := none, timestamp := none } ∧
    (loadContent 5 "c" "t0" (FetchOutcome.rejected "err")
        { content := [itemX],
          cache := { items := some [itemX], timestamp := some 0 } }).cache
      = ({ content := [itemX],
           cache := { items := some [itemX], timestamp := some 0 } } : HookState).cache :=
  have h := cache_cleared_on_empty_subscription_sync 5 "c" "t0"
    { content := [itemX],
      cache := { items := some [itemX], timestamp := some 0 } }
  ⟨h.1, h.2 (FetchOutcome.rejected "err") rfl⟩

/-- C7 counterexample: at first registration the display name is the
literal "Pi Display {code}", not "Display {code}". -/
theorem registerDevice_display_name_counterexample :
    (registerDevice 0 "1.2.3.4" "dev-1" "123456" none none).device_name
      = "Pi Display 123456" ∧
    (registerDevice 0 "1.2.3.4" "dev-1" "123456" none none).device_name
      ≠ "Display 123456" := by
  refine ⟨rfl, by decide⟩

/-- C7 amended: at first registration the display name is set to
"Pi Display {code}"; a later re-registration with `user_id` set leaves
`device_name` unchanged (even with a rotated code); and fetching the
device id twice in a row yields the same id. -/
theorem registerDevice_name_frame (now now2 : Nat) (ip ip2 : String)
    (deviceId code code2 : String) (dev : Device) (owner : String)
    (howner : dev.user_id = some owner)
    (stored : Option String) (uuid1 uuid2 : String) :
    (registerDevice now ip deviceId code none none).device_name
        = "Pi Display " ++ code ∧
    (registerDevice now2 ip2 deviceId code2 (some dev) none).device_name
        = dev.device_name ∧
    (getDeviceId ((getDeviceId stored uuid1).2) uuid2).1
        = (getDeviceId stored uuid1).1 := by
  refine ⟨rfl, ?_, ?_⟩
  · simp [registerDevice, howner]
  · cases stored <;> rfl

/-- Witness for `registerDevice_name_frame` at a concrete paired device
row and stored device id. -/
theorem registerDevice_name_frame_witness :
    (registerDevice 1 "1.2.3.4" "dev-1" "123456" none none).device_name
        = "Pi Display " ++ "123456" ∧
    (registerDevice 2 "5.6.7.8" "dev-1" "654321" (some devP) none).device_name
        = devP.device_name ∧
    (getDeviceId ((getDeviceId (some "id-0") "u1").2) "u2").1
        = (getDeviceId (some "id-0") "u1").1 :=
  registerDevice_name_frame 1 2 "1.2.3.4" "5.6.7.8" "dev-1" "123456" "654321"
    devP "owner-1" rfl (some "id-0") "u1" "u2"
